import Mathlib

/-!
Verification of the tax-calculation service (`app.py`).

The embedding models the three components of the service over `ℚ`:

* `compute_tax` — the pure tax computation (`app.py`, `compute_tax`),
* `calculate_tax` — the request handler (`app.py`, `calculate_tax`), with the
  parsed query parameters as `Option` values and the fetch layer as an
  explicit function argument,
* `backoffRun` / `fetch_tax_data` — the retry-with-backoff and LRU-cache
  layer (`app.py`, `fetch_tax_data` / `get_data`), with the upstream service
  modelled as a function from attempt index to outcome.

Python's `round` (banker's rounding, round-half-to-even) is modelled by
`roundHalfEven` / `round2`.
-/

namespace TaxApp

/-- Round-half-to-even of a rational to an integer, the semantics of
Python's builtin `round` (idealised over `ℚ`). -/
def roundHalfEven (q : ℚ) : ℤ :=
  if q - ⌊q⌋ < 1/2 then ⌊q⌋
  else if (1:ℚ)/2 < q - ⌊q⌋ then ⌊q⌋ + 1
  else if ⌊q⌋ % 2 = 0 then ⌊q⌋ else ⌊q⌋ + 1

/-- Python's `round(x, 2)`: round to two decimal places, half to even. -/
def round2 (q : ℚ) : ℚ := (roundHalfEven (q * 100) : ℚ) / 100

/-- One element of `tax_data['tax_brackets']`: a dict with keys `min`,
`rate` and an optional `max`. -/
structure TaxBracket where
  min : ℚ
  max : Option ℚ
  rate : ℚ
deriving DecidableEq

/-- The dict returned by the upstream tax API: `{'tax_brackets': [...]}`. -/
structure TaxYearData where
  tax_brackets : List TaxBracket
deriving DecidableEq

/-- One element of the `tax_details` list built by `compute_tax`: the
open-ended bracket entry (line 188 of `app.py`) carries no `max` key. -/
structure TaxBreakdownEntry where
  min : ℚ
  max : Option ℚ
  tax_paid : ℚ
deriving DecidableEq

/-- The body of one iteration of the `for bracket in brackets` loop of
`compute_tax` (`app.py` lines 174-188), acting on the accumulator
`(total_tax, tax_details)`. -/
def bracketStep (income : ℚ) (acc : ℚ × List TaxBreakdownEntry)
    (bracket : TaxBracket) : ℚ × List TaxBreakdownEntry :=
  match bracket.max with
  | some mx =>
      if bracket.min < income then
        let taxable_income := min income mx - bracket.min
        let tax := taxable_income * bracket.rate
        (acc.1 + tax, acc.2 ++ [⟨bracket.min, some mx, round2 tax⟩])
      else acc
  | none =>
      if bracket.min < income then
        let taxable_income := income - bracket.min
        let tax := taxable_income * bracket.rate
        (acc.1 + tax, acc.2 ++ [⟨bracket.min, none, round2 (round2 tax)⟩])
      else acc

/-- `compute_tax(income, tax_data)` (`app.py` lines 159-193). Returns the
triple `(total_tax, tax_details, effective_rate)`; the effective rate is
computed from the running total before that total is itself rounded, exactly
as in lines 190-191 of the source. -/
def compute_tax (income : ℚ) (tax_data : TaxYearData) :
    ℚ × List TaxBreakdownEntry × ℚ :=
  let p := tax_data.tax_brackets.foldl (bracketStep income) (0, [])
  let effective_rate := if 0 < income then round2 (p.1 / income * 100) else 0
  (round2 p.1, p.2, effective_rate)

/-- The unrounded tax amount a single bracket contributes to the running
total in `compute_tax` (`tax = taxable_income * bracket['rate']`), and `0`
for a bracket whose guard `income > bracket['min']` fails. -/
def bracketRawTax (income : ℚ) (bracket : TaxBracket) : ℚ :=
  match bracket.max with
  | some mx =>
      if bracket.min < income then (min income mx - bracket.min) * bracket.rate else 0
  | none =>
      if bracket.min < income then (income - bracket.min) * bracket.rate else 0

/-- The breakdown entry `compute_tax` appends for a bracket whose guard
`income > bracket['min']` holds (lines 181 and 188 of `app.py`; the
open-ended branch rounds the already-rounded figure once more). -/
def entryOf (income : ℚ) (bracket : TaxBracket) : TaxBreakdownEntry :=
  match bracket.max with
  | some mx =>
      ⟨bracket.min, some mx, round2 ((min income mx - bracket.min) * bracket.rate)⟩
  | none =>
      ⟨bracket.min, none, round2 (round2 ((income - bracket.min) * bracket.rate))⟩

/-- Python truthiness of the parsed `annual_income` query parameter:
`request.args.get('annual_income', type=float)` yields `None` when the
parameter is absent or unparseable, and the guard
`if not (annual_income and tax_year)` treats both `None` and `0` as falsy. -/
def pyTruthyQ (o : Option ℚ) : Bool :=
  match o with
  | none => false
  | some x => decide (x ≠ 0)

/-- Python truthiness of the parsed `tax_year` query parameter (absent,
unparseable, and `0` are all falsy). -/
def pyTruthyZ (o : Option ℤ) : Bool :=
  match o with
  | none => false
  | some n => decide (n ≠ 0)

/-- A JSON response body: either `{'error': msg}` or the success payload
`{'total_tax': ..., 'tax_details': ..., 'effective_rate': ...}`. -/
inductive ResponseBody where
  | error (msg : String)
  | result (total_tax : ℚ) (tax_details : List TaxBreakdownEntry) (effective_rate : ℚ)
deriving DecidableEq

/-- An HTTP response of the endpoint: status code and JSON body. -/
structure Response where
  status : ℕ
  body : ResponseBody
deriving DecidableEq

/-- The outcome of one upstream call inside `get_data` (`requests.get`
followed by `raise_for_status`): parsed JSON data on success, otherwise the
raised exception — an `HTTPError` carrying the response's status code, or a
network error / timeout carrying no response. -/
inductive AttemptOutcome where
  | success (d : TaxYearData)
  | httpError (status_code : ℕ)
  | networkError
  | timeoutError
deriving DecidableEq

/-- The error message of the unsupported-year response
(`f"Unsupported tax year. Supported years are: {', '.join(...)}"`). -/
def unsupportedYearMessage (supported_tax_years : List ℤ) : String :=
  "Unsupported tax year. Supported years are: " ++
    String.intercalate ", " (supported_tax_years.map toString)

/-- `calculate_tax` (`app.py` lines 100-119), after Flask has parsed the two
query parameters: the fetch layer is passed explicitly as a function from
year to either data or a raised exception, and the `try/except` around
fetch-and-compute maps any exception to the opaque 500 response. -/
def calculate_tax (annual_income : Option ℚ) (tax_year : Option ℤ)
    (supported_tax_years : List ℤ)
    (fetch : ℤ → Except AttemptOutcome TaxYearData) : Response :=
  if !(pyTruthyQ annual_income && pyTruthyZ tax_year) then
    ⟨400, .error "Missing required parameters"⟩
  else
    match annual_income, tax_year with
    | some income, some ty =>
        if ty ∉ supported_tax_years then
          ⟨400, .error (unsupportedYearMessage supported_tax_years)⟩
        else
          match fetch ty with
          | .error _ => ⟨500, .error "Internal Server Error"⟩
          | .ok tax_data =>
              let r := compute_tax income tax_data
              ⟨200, .result r.1 r.2.1 r.2.2⟩
    | _, _ => ⟨400, .error "Missing required parameters"⟩

/-- The giveup predicate of the backoff decorator on `get_data`:
`lambda e: e.response is not None and e.response.status_code < 500`.
Only an `HTTPError` carries a response. -/
def giveup : AttemptOutcome → Bool
  | .httpError s => decide (s < 500)
  | _ => false

/-- Whether an upstream call raised (did not return data). -/
def isFailure : AttemptOutcome → Bool
  | .success _ => false
  | _ => true

/-- `@backoff.on_exception(backoff.expo, (RequestException, Timeout),
max_tries=..., giveup=...)` applied to the body of `get_data`. The upstream
service is modelled as the function `attempts` from attempt index to
outcome; `backoffRun attempts i fuel` runs starting at attempt `i` with
`fuel` tries remaining and returns the final result (data, or the exception
ultimately raised) together with the number of upstream calls made. The
`fuel = 0` case never arises for the configured `max_tries ≥ 1`. -/
def backoffRun (attempts : ℕ → AttemptOutcome) (i : ℕ) :
    ℕ → Except AttemptOutcome TaxYearData × ℕ
  | 0 => (.error .networkError, 0)
  | fuel + 1 =>
      match attempts i with
      | .success d => (.ok d, 1)
      | o =>
          if giveup o || fuel == 0 then (.error o, 1)
          else
            let r := backoffRun attempts (i + 1) fuel
            (r.1, r.2 + 1)

/-- `cachetools.LRUCache(maxsize=...)`: a bounded map from tax year to
`TaxYearData`, entries listed most recently used first. -/
structure LRUCache where
  maxsize : ℕ
  entries : List (ℤ × TaxYearData)
deriving DecidableEq

/-- Cache lookup (`cache[key]` in the `@cached` wrapper): on a hit the entry
moves to the most-recently-used position. -/
def cacheGet (c : LRUCache) (k : ℤ) : Option TaxYearData × LRUCache :=
  match c.entries.lookup k with
  | none => (none, c)
  | some v => (some v, ⟨c.maxsize, (k, v) :: c.entries.eraseP (fun e => k == e.1)⟩)

/-- Cache insertion (`cache[key] = value`): inserts at the
most-recently-used position, evicting the least-recently-used entry when the
cache is at capacity. -/
def cacheInsert (c : LRUCache) (k : ℤ) (v : TaxYearData) : LRUCache :=
  let rest := c.entries.eraseP (fun e => k == e.1)
  let rest' := if c.maxsize ≤ rest.length then rest.dropLast else rest
  ⟨c.maxsize, (k, v) :: rest'⟩

/-- `fetch_tax_data` (`app.py` lines 121-157): the `@cached(cache)` wrapper
around the backoff-wrapped `get_data`. Returns the result, the cache after
the call, and the number of upstream calls made; a raised exception is
re-raised unchanged by the `try/except` in the source, so it appears here as
the `.error` result. -/
def fetch_tax_data (cache : LRUCache) (tax_year : ℤ)
    (attempts : ℕ → AttemptOutcome) (max_tries : ℕ) :
    Except AttemptOutcome TaxYearData × LRUCache × ℕ :=
  match cacheGet cache tax_year with
  | (some d, c') => (.ok d, c', 0)
  | (none, _) =>
      match backoffRun attempts 0 max_tries with
      | (.ok d, n) => (.ok d, cacheInsert cache tax_year d, n)
      | (.error e, n) => (.error e, cache, n)

end TaxApp

open TaxApp

theorem bracketStep_eq (income : ℚ) (acc : ℚ × List TaxBreakdownEntry)
    (b : TaxBracket) :
    bracketStep income acc b =
      (acc.1 + bracketRawTax income b,
       acc.2 ++ if b.min < income then [entryOf income b] else []) := by
  rcases b with ⟨bmin, bmax, brate⟩
  cases bmax <;> simp only [bracketStep, bracketRawTax, entryOf] <;>
    split <;> simp

theorem foldl_bracketStep (income : ℚ) (l : List TaxBracket) :
    ∀ acc : ℚ × List TaxBreakdownEntry,
      l.foldl (bracketStep income) acc =
        (acc.1 + (l.map (bracketRawTax income)).sum,
         acc.2 ++ (l.filter (fun b => decide (b.min < income))).map (entryOf income)) := by
  induction l with
  | nil => intro acc; simp
  | cons b t ih =>
      intro acc
      rw [List.foldl_cons, ih, bracketStep_eq]
      by_cases h : b.min < income <;>
        simp [h, List.filter_cons, add_assoc]

theorem compute_tax_fst (income : ℚ) (d : TaxYearData) :
    (compute_tax income d).1 =
      round2 ((d.tax_brackets.map (bracketRawTax income)).sum) := by
  unfold compute_tax
  rw [foldl_bracketStep]
  simp

theorem compute_tax_details (income : ℚ) (d : TaxYearData) :
    (compute_tax income d).2.1 =
      (d.tax_brackets.filter (fun b => decide (b.min < income))).map (entryOf income) := by
  unfold compute_tax
  rw [foldl_bracketStep]
  simp

theorem compute_tax_rate_nonpos (income : ℚ) (d : TaxYearData) (h : income ≤ 0) :
    (compute_tax income d).2.2 = 0 := by
  unfold compute_tax
  simp [not_lt.mpr h]

theorem round2_zero : round2 0 = 0 := by
  with_unfolding_all rfl

/-- C1: on income 145000 and the 2021 two-bracket list, `compute_tax`
returns total_tax 26490.15, the two breakdown entries in bracket order with
tax_paid 7529.55 and 18960.6, and effective_rate 18.27. -/
theorem C1_concrete_scenario :
    compute_tax 145000 ⟨[⟨0, some 50197, 0.15⟩, ⟨50197, none, 0.2⟩]⟩ =
      (26490.15,
       [⟨0, some 50197, 7529.55⟩, ⟨50197, none, 18960.6⟩],
       18.27) := by
  with_unfolding_all rfl

/-- C2 counterexample: income `-1 ≤ 0` with the structurally valid
single-bracket list `[{min: -2, rate: 1}]` (ascending mins, one open-ended
final bracket) yields `total_tax = 1`, not `0`: the guard
`income > bracket['min']` passes because the bracket's `min` is negative. -/
theorem C2_counterexample_negative_min :
    (-1 : ℚ) ≤ 0 ∧ ¬((compute_tax (-1) ⟨[⟨-2, none, 1⟩]⟩).1 = 0) := by
  constructor
  · with_unfolding_all decide
  · intro h
    rw [show (compute_tax (-1) ⟨[⟨-2, none, 1⟩]⟩).1 = 1 by with_unfolding_all rfl] at h
    exact one_ne_zero h

/-- C2 (amended): for every bracket list all of whose brackets have a
nonnegative `min` and every income ≤ 0, `compute_tax` returns
`total_tax = 0` and `effective_rate = 0` (the division by income is guarded
and never performed when income ≤ 0). -/
theorem C2_income_nonpos (income : ℚ) (d : TaxYearData)
    (hb : ∀ b ∈ d.tax_brackets, 0 ≤ b.min) (h : income ≤ 0) :
    (compute_tax income d).1 = 0 ∧ (compute_tax income d).2.2 = 0 := by
  refine ⟨?_, compute_tax_rate_nonpos income d h⟩
  rw [compute_tax_fst]
  have hz : (d.tax_brackets.map (bracketRawTax income)).sum = 0 := by
    apply List.sum_eq_zero
    intro x hx
    rcases List.mem_map.mp hx with ⟨b, hbmem, rfl⟩
    have hnlt : ¬ b.min < income := not_lt.mpr (h.trans (hb b hbmem))
    rcases b with ⟨bmin, bmax, brate⟩
    cases bmax <;> simp [bracketRawTax, hnlt]
  rw [hz, round2_zero]

/-- C2 witness: instantiates `C2_income_nonpos` at income `0` and the 2021
bracket list with integral rates. -/
theorem C2_income_nonpos_witness :
    (compute_tax 0 ⟨[⟨0, some 50197, 1⟩, ⟨50197, none, 2⟩]⟩).1 = 0 ∧
    (compute_tax 0 ⟨[⟨0, some 50197, 1⟩, ⟨50197, none, 2⟩]⟩).2.2 = 0 :=
  C2_income_nonpos 0 ⟨[⟨0, some 50197, 1⟩, ⟨50197, none, 2⟩]⟩
    (by decide) (by decide)

/-- C3: the `total_tax` returned by `compute_tax` is the sum of the
unrounded per-bracket amounts (`taxable_slice * rate`), rounded to two
decimals once after all brackets are summed; the rounded per-bracket figures
stored in the breakdown entries are not what is accumulated. -/
theorem C3_total_tax_rounds_raw_sum (income : ℚ) (d : TaxYearData) :
    (compute_tax income d).1 =
      round2 ((d.tax_brackets.map (bracketRawTax income)).sum) :=
  compute_tax_fst income d

/-- C4 counterexample: for income 1 and the structurally valid bracket list
`[{min: 0, rate: 0}]`, the bracket's computed tax is `0`, yet `compute_tax`
records a breakdown entry for it, and that entry has `tax_paid = 0` — so a
zero-contributing bracket can produce an entry and an entry can carry a zero
`tax_paid`. -/
theorem C4_counterexample_zero_rate :
    bracketRawTax 1 ⟨0, none, 0⟩ = 0 ∧
    (compute_tax 1 ⟨[⟨0, none, 0⟩]⟩).2.1 = [⟨0, none, 0⟩] := by
  constructor <;> with_unfolding_all rfl

/-- C4 (amended): `tax_details` contains exactly one entry per bracket
whose `min` is strictly exceeded by the income, in bracket order (each entry
carrying that bracket's rounded tax figure); a bracket with
`income ≤ min` produces no entry. Entries with `tax_paid = 0` do occur,
for contributing brackets whose computed tax is zero. -/
theorem C4_details_per_contributing_bracket (income : ℚ) (d : TaxYearData) :
    (compute_tax income d).2.1 =
      (d.tax_brackets.filter (fun b => decide (b.min < income))).map (entryOf income) :=
  compute_tax_details income d

theorem roundHalfEven_le_floor_add_one (q : ℚ) : roundHalfEven q ≤ ⌊q⌋ + 1 := by
  unfold roundHalfEven
  split_ifs <;> omega

theorem floor_le_roundHalfEven (q : ℚ) : ⌊q⌋ ≤ roundHalfEven q := by
  unfold roundHalfEven
  split_ifs <;> omega

theorem roundHalfEven_mono {q r : ℚ} (h : q ≤ r) :
    roundHalfEven q ≤ roundHalfEven r := by
  rcases eq_or_lt_of_le (Int.floor_mono h) with hf | hf
  · unfold roundHalfEven
    rw [← hf]
    split_ifs <;> first | omega | linarith
  · have h1 := roundHalfEven_le_floor_add_one q
    have h2 := floor_le_roundHalfEven r
    omega

theorem round2_mono {q r : ℚ} (h : q ≤ r) : round2 q ≤ round2 r := by
  unfold round2
  have h1 : q * 100 ≤ r * 100 := by linarith
  have h2 : ((roundHalfEven (q * 100) : ℤ) : ℚ) ≤ ((roundHalfEven (r * 100) : ℤ) : ℚ) := by
    exact_mod_cast roundHalfEven_mono h1
  linarith

theorem bracketRawTax_mono {i1 i2 : ℚ} (b : TaxBracket)
    (hrate : 0 ≤ b.rate) (hminmax : b.min ≤ b.max.getD b.min) (h : i1 ≤ i2) :
    bracketRawTax i1 b ≤ bracketRawTax i2 b := by
  rcases b with ⟨bmin, bmax, brate⟩
  cases bmax with
  | none =>
      simp only [bracketRawTax]
      split_ifs with h1 h2
      · apply mul_le_mul_of_nonneg_right _ hrate
        linarith
      · exact absurd (lt_of_lt_of_le h1 h) h2
      · rename_i h2
        apply mul_nonneg _ hrate
        linarith
      · exact le_refl 0
  | some mx =>
      simp only [Option.getD_some] at hminmax
      simp only [bracketRawTax]
      split_ifs with h1 h2
      · apply mul_le_mul_of_nonneg_right _ hrate
        have hmm : min i1 mx ≤ min i2 mx := min_le_min h (le_refl mx)
        linarith
      · exact absurd (lt_of_lt_of_le h1 h) h2
      · rename_i h2
        apply mul_nonneg _ hrate
        have : bmin ≤ min i2 mx := le_min (le_of_lt h2) hminmax
        linarith
      · exact le_refl 0

/-- C5 counterexample: with the structurally valid bracket list
`[{min: 0, rate: -1}]` (a single open-ended bracket with a negative rate),
incomes `1 ≤ 2` give `total_tax = -1` and `-2` respectively, so increasing
the income strictly decreases `total_tax`. -/
theorem C5_counterexample_negative_rate :
    (1 : ℚ) ≤ 2 ∧
    ¬((compute_tax 1 ⟨[⟨0, none, -1⟩]⟩).1 ≤ (compute_tax 2 ⟨[⟨0, none, -1⟩]⟩).1) := by
  constructor
  · with_unfolding_all decide
  · intro hle
    rw [show (compute_tax 1 ⟨[⟨0, none, -1⟩]⟩).1 = -1 by with_unfolding_all rfl,
        show (compute_tax 2 ⟨[⟨0, none, -1⟩]⟩).1 = -2 by with_unfolding_all rfl] at hle
    norm_num at hle

/-- C5 (amended): for every bracket list whose rates are all nonnegative and
whose bounded brackets satisfy `min ≤ max`, `compute_tax` is monotone in the
income: `i1 ≤ i2` implies `total_tax(i1) ≤ total_tax(i2)`. -/
theorem C5_total_tax_monotone (d : TaxYearData) (i1 i2 : ℚ)
    (hrate : ∀ b ∈ d.tax_brackets, 0 ≤ b.rate)
    (hminmax : ∀ b ∈ d.tax_brackets, b.min ≤ b.max.getD b.min)
    (h : i1 ≤ i2) :
    (compute_tax i1 d).1 ≤ (compute_tax i2 d).1 := by
  rw [compute_tax_fst, compute_tax_fst]
  apply round2_mono
  apply List.sum_le_sum
  intro b hb
  exact bracketRawTax_mono b (hrate b hb) (hminmax b hb) h

/-- C5 witness: instantiates `C5_total_tax_monotone` on the 2021 bracket
shape with integral rates and incomes 100 ≤ 200. -/
theorem C5_total_tax_monotone_witness :
    (compute_tax 100 ⟨[⟨0, some 50197, 1⟩, ⟨50197, none, 2⟩]⟩).1 ≤
    (compute_tax 200 ⟨[⟨0, some 50197, 1⟩, ⟨50197, none, 2⟩]⟩).1 :=
  C5_total_tax_monotone ⟨[⟨0, some 50197, 1⟩, ⟨50197, none, 2⟩]⟩ 100 200
    (by decide) (by decide) (by decide)

theorem unsupportedYearMessage_ne (supported_tax_years : List ℤ) :
    unsupportedYearMessage supported_tax_years ≠ "Missing required parameters" := by
  intro h
  have hl := congrArg String.length h
  rw [unsupportedYearMessage, String.length_append] at hl
  have h1 : ("Unsupported tax year. Supported years are: ").length = 43 := rfl
  have h2 : ("Missing required parameters").length = 27 := rfl
  omega

/-- C6 counterexample: `annual_income` present and parseable (it parses to
the float `0`) and `tax_year` present, parseable and supported, yet the
handler answers 400 `{'error': 'Missing required parameters'}` — so the
missing-parameters error is not returned precisely when a parameter is
absent or unparseable. -/
theorem C6_counterexample_zero_income :
    calculate_tax (some 0) (some 2021) [2021, 2022, 2023] (fun _ => .ok ⟨[]⟩) =
      ⟨400, .error "Missing required parameters"⟩ := by
  rfl

/-- C6 (amended): the handler responds 400 with body exactly
`{'error': 'Missing required parameters'}` precisely when `annual_income` is
absent, unparseable or parses to `0`, or `tax_year` is absent, unparseable
or parses to `0` (absent and unparseable parameters are both `None` after
`request.args.get(..., type=...)`); in every other case this error is not
returned. -/
theorem C6_missing_params_iff (annual_income : Option ℚ) (tax_year : Option ℤ)
    (supported_tax_years : List ℤ)
    (fetch : ℤ → Except AttemptOutcome TaxYearData) :
    calculate_tax annual_income tax_year supported_tax_years fetch =
        ⟨400, .error "Missing required parameters"⟩ ↔
      (annual_income = none ∨ annual_income = some 0 ∨
        tax_year = none ∨ tax_year = some 0) := by
  rcases annual_income with _ | inc
  · simp [calculate_tax, pyTruthyQ]
  · rcases tax_year with _ | ty
    · simp [calculate_tax, pyTruthyQ, pyTruthyZ]
    · by_cases hinc : inc = 0
      · subst hinc
        simp [calculate_tax, pyTruthyQ, pyTruthyZ]
      · by_cases hty : ty = 0
        · subst hty
          simp [calculate_tax, pyTruthyQ, pyTruthyZ]
        · simp only [calculate_tax, pyTruthyQ, pyTruthyZ, hinc, hty,
            Option.some.injEq, or_self, iff_false, decide_not,
            false_or, reduceCtorEq]
          simp only [decide_eq_true_eq] at *
          rw [if_neg]
          · intro hcontra
            split_ifs at hcontra with hmem
            · rcases hfetch : fetch ty with e | dd <;> rw [hfetch] at hcontra <;>
                simp at hcontra
            · rw [Response.mk.injEq] at hcontra
              exact unsupportedYearMessage_ne supported_tax_years
                (ResponseBody.error.injEq _ _ |>.mp hcontra.2)
          · simp [hinc, hty]

/-- C10: because the presence check `if not (annual_income and tax_year)`
uses Python truthiness rather than a `None` test, a request whose
`annual_income` parses to `0` or whose `tax_year` parses to `0` is answered
400 `{'error': 'Missing required parameters'}` — for every supported-years
configuration and every fetch behaviour, i.e. without any upstream fetch or
tax computation taking place. -/
theorem C10_zero_parameter_rejected_as_missing (annual_income : Option ℚ)
    (tax_year : Option ℤ) (supported_tax_years : List ℤ)
    (fetch : ℤ → Except AttemptOutcome TaxYearData)
    (h : annual_income = some 0 ∨ tax_year = some 0) :
    calculate_tax annual_income tax_year supported_tax_years fetch =
      ⟨400, .error "Missing required parameters"⟩ := by
  rcases h with h | h
  · subst h
    simp [calculate_tax, pyTruthyQ]
  · subst h
    rcases annual_income with _ | inc <;> simp [calculate_tax, pyTruthyQ, pyTruthyZ]

/-- C10 witness: instantiates `C10_zero_parameter_rejected_as_missing` at
`annual_income = 5`, `tax_year = 0`. -/
theorem C10_zero_parameter_witness :
    calculate_tax (some 5) (some 0) [2021] (fun _ => .ok ⟨[]⟩) =
      ⟨400, .error "Missing required parameters"⟩ :=
  C10_zero_parameter_rejected_as_missing (some 5) (some 0) [2021]
    (fun _ => .ok ⟨[]⟩) (Or.inr rfl)

/-- C7: in the retry loop of `get_data`, (1) an HTTP error response with
status code < 500 on any attempt aborts immediately — a single upstream call
is made from that point and the error propagates; (2) a transient failure
(network error, timeout, or HTTP status ≥ 500) with tries remaining is
retried, the run continuing with the next attempt; (3) the number of
attempts is bounded: on the last allowed try any failure propagates. -/
theorem C7_retry_iff_transient (attempts : ℕ → AttemptOutcome) (i fuel : ℕ) :
    (∀ s, attempts i = .httpError s → s < 500 →
      backoffRun attempts i (fuel + 1) = (.error (.httpError s), 1)) ∧
    (∀ o, attempts i = o →
      (o = .networkError ∨ o = .timeoutError ∨
        ∃ s, 500 ≤ s ∧ o = .httpError s) →
      backoffRun attempts i (fuel + 2) =
        ((backoffRun attempts (i + 1) (fuel + 1)).1,
         (backoffRun attempts (i + 1) (fuel + 1)).2 + 1)) ∧
    (∀ o, attempts i = o → isFailure o = true →
      backoffRun attempts i 1 = (.error o, 1)) := by
  refine ⟨?_, ?_, ?_⟩
  · intro s hs hlt
    simp [backoffRun, hs, giveup, hlt]
  · intro o ho htrans
    rcases htrans with rfl | rfl | ⟨s, hs, rfl⟩
    · simp [backoffRun, ho, giveup]
    · simp [backoffRun, ho, giveup]
    · simp [backoffRun, ho, giveup, Nat.not_lt.mpr hs]
  · intro o ho hfail
    cases o <;> simp [isFailure] at hfail <;> simp [backoffRun, ho, giveup]

/-- C7 witness: a 404 response on the first attempt, with three allowed
tries, stops after exactly one upstream call and propagates the error. -/
theorem C7_retry_iff_transient_witness :
    backoffRun (fun _ => .httpError 404) 0 3 = (.error (.httpError 404), 1) :=
  (C7_retry_iff_transient (fun _ => .httpError 404) 0 2).1 404 rfl (by decide)

theorem lookup_cons_eraseP_perm (k : ℤ) (v : TaxYearData) :
    ∀ l : List (ℤ × TaxYearData), l.lookup k = some v →
      List.Perm ((k, v) :: l.eraseP (fun e => k == e.1)) l := by
  intro l
  induction l with
  | nil => intro h; simp [List.lookup] at h
  | cons hd tl ih =>
      intro h
      rcases hd with ⟨k', v'⟩
      by_cases hk : k = k'
      · subst hk
        simp [List.lookup] at h
        subst h
        simp [List.eraseP_cons]
      · have hbeq : (k == k') = false := beq_eq_false_iff_ne.mpr hk
        rw [List.lookup, hbeq] at h
        rw [List.eraseP_cons]
        simp only [hbeq]
        exact (List.Perm.swap (k', v') (k, v) _).trans ((ih h).cons (k', v'))

theorem fetch_tax_data_hit (cache : LRUCache) (tax_year : ℤ) (d : TaxYearData)
    (attempts : ℕ → AttemptOutcome) (max_tries : ℕ)
    (h : cache.entries.lookup tax_year = some d) :
    fetch_tax_data cache tax_year attempts max_tries =
      (.ok d,
       ⟨cache.maxsize, (tax_year, d) :: cache.entries.eraseP (fun e => tax_year == e.1)⟩,
       0) := by
  unfold fetch_tax_data cacheGet
  rw [h]

/-- C8: on a cache hit, `fetch_tax_data` returns the cached data, makes no
upstream call (hence no retry), and changes the cache only in recency order
(the multiset of entries is preserved); a second call with the same year on
the resulting cache returns the same data again. -/
theorem C8_cache_hit_no_upstream (cache : LRUCache) (tax_year : ℤ)
    (d : TaxYearData) (attempts : ℕ → AttemptOutcome) (max_tries : ℕ)
    (h : cache.entries.lookup tax_year = some d) :
    (fetch_tax_data cache tax_year attempts max_tries).1 = .ok d ∧
    (fetch_tax_data cache tax_year attempts max_tries).2.2 = 0 ∧
    List.Perm (fetch_tax_data cache tax_year attempts max_tries).2.1.entries
      cache.entries ∧
    (fetch_tax_data (fetch_tax_data cache tax_year attempts max_tries).2.1
        tax_year attempts max_tries).1 = .ok d := by
  rw [fetch_tax_data_hit cache tax_year d attempts max_tries h]
  refine ⟨rfl, rfl, lookup_cons_eraseP_perm tax_year d cache.entries h, ?_⟩
  rw [fetch_tax_data_hit _ tax_year d attempts max_tries (by simp [List.lookup])]

/-- C8 witness: instantiates `C8_cache_hit_no_upstream` on a one-entry
cache; the attempts function would always fail, so any upstream call would
be visible in the result. -/
theorem C8_cache_hit_witness :
    (fetch_tax_data ⟨100, [(2021, ⟨[⟨0, none, 1⟩]⟩)]⟩ 2021 (fun _ => .networkError) 3).1 =
        .ok ⟨[⟨0, none, 1⟩]⟩ ∧
    (fetch_tax_data ⟨100, [(2021, ⟨[⟨0, none, 1⟩]⟩)]⟩ 2021 (fun _ => .networkError) 3).2.2 = 0 ∧
    List.Perm
      (fetch_tax_data ⟨100, [(2021, ⟨[⟨0, none, 1⟩]⟩)]⟩ 2021 (fun _ => .networkError) 3).2.1.entries
      [(2021, ⟨[⟨0, none, 1⟩]⟩)] ∧
    (fetch_tax_data
        (fetch_tax_data ⟨100, [(2021, ⟨[⟨0, none, 1⟩]⟩)]⟩ 2021 (fun _ => .networkError) 3).2.1
        2021 (fun _ => .networkError) 3).1 = .ok ⟨[⟨0, none, 1⟩]⟩ :=
  C8_cache_hit_no_upstream ⟨100, [(2021, ⟨[⟨0, none, 1⟩]⟩)]⟩ 2021 ⟨[⟨0, none, 1⟩]⟩
    (fun _ => .networkError) 3 (by decide)

theorem backoffRun_transient_then_success (attempts : ℕ → AttemptOutcome)
    (d : TaxYearData) (m : ℕ)
    (hfail : isFailure (attempts 0) = true) (hgive : giveup (attempts 0) = false)
    (hsucc : attempts 1 = .success d) :
    backoffRun attempts 0 (m + 2) = (.ok d, 2) := by
  cases ho : attempts 0 with
  | success dd => rw [ho] at hfail; simp [isFailure] at hfail
  | httpError s =>
      rw [ho] at hgive
      simp [backoffRun, ho, hgive, hsucc]
  | networkError => simp [backoffRun, ho, hsucc, giveup]
  | timeoutError => simp [backoffRun, ho, hsucc, giveup]

/-- C9: on a cache miss, (1) if every attempt fails — i.e. the retry run
raises — the cache is left unchanged, so it still has no entry for that
year; (2) if the run returns data (in particular after a transient failure
followed by a success), the value returned and the value cached under the
year are that successful response's data; (3) concretely, a transient first
attempt followed by a successful second attempt (with at least two allowed
tries) returns and caches the second attempt's data. -/
theorem C9_cache_populated_only_on_success (cache : LRUCache) (tax_year : ℤ)
    (attempts : ℕ → AttemptOutcome) (max_tries : ℕ)
    (hmiss : cache.entries.lookup tax_year = none) :
    (∀ e n, backoffRun attempts 0 max_tries = (.error e, n) →
      (fetch_tax_data cache tax_year attempts max_tries).2.1 = cache ∧
      (fetch_tax_data cache tax_year attempts max_tries).2.1.entries.lookup tax_year
        = none) ∧
    (∀ d n, backoffRun attempts 0 max_tries = (.ok d, n) →
      (fetch_tax_data cache tax_year attempts max_tries).1 = .ok d ∧
      (fetch_tax_data cache tax_year attempts max_tries).2.1.entries.lookup tax_year
        = some d) ∧
    (∀ d, isFailure (attempts 0) = true → giveup (attempts 0) = false →
      attempts 1 = .success d → max_tries = 2 →
      (fetch_tax_data cache tax_year attempts max_tries).1 = .ok d ∧
      (fetch_tax_data cache tax_year attempts max_tries).2.1.entries.lookup tax_year
        = some d) := by
  have hbase :
      fetch_tax_data cache tax_year attempts max_tries =
        (match backoffRun attempts 0 max_tries with
          | (.ok d, n) => (.ok d, cacheInsert cache tax_year d, n)
          | (.error e, n) => (.error e, cache, n)) := by
    unfold fetch_tax_data cacheGet
    rw [hmiss]
  refine ⟨?_, ?_, ?_⟩
  · intro e n hrun
    rw [hbase, hrun]
    exact ⟨rfl, hmiss⟩
  · intro d n hrun
    rw [hbase, hrun]
    refine ⟨rfl, ?_⟩
    simp [cacheInsert, List.lookup]
  · intro d hfail hgive hsucc hmt
    subst hmt
    have hrun := backoffRun_transient_then_success attempts d 0 hfail hgive hsucc
    rw [hbase, hrun]
    refine ⟨rfl, ?_⟩
    simp [cacheInsert, List.lookup]

/-- C9 witness: empty cache, first attempt a 500 server error, second
attempt successful with two allowed tries — the successful data is returned
and cached. -/
theorem C9_cache_populated_witness :
    (fetch_tax_data ⟨100, []⟩ 2021
        (fun n => if n = 0 then .httpError 500 else .success ⟨[⟨0, none, 1⟩]⟩) 2).1 =
      .ok ⟨[⟨0, none, 1⟩]⟩ ∧
    (fetch_tax_data ⟨100, []⟩ 2021
        (fun n => if n = 0 then .httpError 500 else .success ⟨[⟨0, none, 1⟩]⟩) 2).2.1.entries.lookup 2021 =
      some ⟨[⟨0, none, 1⟩]⟩ :=
  (C9_cache_populated_only_on_success ⟨100, []⟩ 2021
      (fun n => if n = 0 then .httpError 500 else .success ⟨[⟨0, none, 1⟩]⟩) 2
      rfl).2.2 ⟨[⟨0, none, 1⟩]⟩ (by decide) (by decide) rfl rfl
